import Mathlib

/-!
Verification of the EbookSearching repository (`src/main.py`) via a shallow
embedding in Lean 4.  Pure string manipulation is translated to Lean
functions; the HTTP interaction of the pagination loop is made explicit by
passing an environment `Request → ApiResponse` describing how the external
search API answers each request; console output is collected in an explicit
log; fallible code returns `Except`.
-/

namespace EbookSearch

/-! ### Character classes and `urllib.parse.quote`

`build_query` ends with `quote(query)` (percent-encoding with default
`safe='/'`): every character other than ASCII alphanumerics, `_`, `.`, `-`,
`~` and `/` is UTF-8 encoded and each byte written as `%XX` with upper-case
hex digits. -/

def isAsciiLetterCh (c : Char) : Bool :=
  ('a' ≤ c && c ≤ 'z') || ('A' ≤ c && c ≤ 'Z')

def isAsciiDigitCh (c : Char) : Bool :=
  '0' ≤ c && c ≤ '9'

def isAsciiAlnumCh (c : Char) : Bool :=
  isAsciiLetterCh c || isAsciiDigitCh c

/-- The characters `urllib.parse.quote` leaves unencoded with the default
`safe='/'`: the always-safe set (alphanumerics and `_.-~`) plus `/`. -/
def quoteSafeCh (c : Char) : Bool :=
  isAsciiAlnumCh c || c = '_' || c = '.' || c = '-' || c = '~' || c = '/'

/-- UTF-8 encoding of a single code point, as a list of byte values. -/
def utf8Bytes (c : Char) : List Nat :=
  let n := c.toNat
  if n < 0x80 then [n]
  else if n < 0x800 then
    [0xC0 ||| (n >>> 6), 0x80 ||| (n &&& 0x3F)]
  else if n < 0x10000 then
    [0xE0 ||| (n >>> 12), 0x80 ||| ((n >>> 6) &&& 0x3F), 0x80 ||| (n &&& 0x3F)]
  else
    [0xF0 ||| (n >>> 18), 0x80 ||| ((n >>> 12) &&& 0x3F),
     0x80 ||| ((n >>> 6) &&& 0x3F), 0x80 ||| (n &&& 0x3F)]

/-- Upper-case hexadecimal digit for a value `< 16`. -/
def hexDigitCh (n : Nat) : Char :=
  if n < 10 then Char.ofNat ('0'.toNat + n) else Char.ofNat ('A'.toNat + n - 10)

/-- Percent-encoding of one character, as `urllib.parse.quote` does it. -/
def quoteChar (c : Char) : List Char :=
  if quoteSafeCh c then [c]
  else (utf8Bytes c).flatMap fun b => ['%', hexDigitCh (b / 16), hexDigitCh (b % 16)]

/-- `urllib.parse.quote` with its default arguments, as called at the end of
`EbookSearcher.build_query`. -/
def pyQuote (s : String) : String :=
  String.mk (s.toList.flatMap quoteChar)

/-! ### `EbookSearcher.build_query` (src/main.py lines 56-85) -/

/-- The query string assembled by `build_query` before the final
`quote(query)` call: each keyword wrapped in double quotes and joined with
spaces; `site:<site> ` prepended when `site` is non-empty (Python truthiness
of the string); ` filetype:a OR filetype:b …` appended when the file-type
list is non-empty (Python truthiness of the list). -/
def buildQueryRaw (keywords : List String) (site : String)
    (filetypes : List String) : String :=
  let keywordQuery := String.intercalate " " (keywords.map fun k => "\"" ++ k ++ "\"")
  let query : String := if site ≠ "" then "site:" ++ site ++ " " else ""
  let query := query ++ keywordQuery
  if filetypes ≠ [] then
    query ++ " " ++ String.intercalate " OR " (filetypes.map fun ft => "filetype:" ++ ft)
  else
    query

/-- `EbookSearcher.build_query`: the raw query, percent-encoded. -/
def build_query (keywords : List String) (site : String)
    (filetypes : List String) : String :=
  pyQuote (buildQueryRaw keywords site filetypes)

/-! ### Data model of the searcher and of the external API

`EbookSearcher.__init__` stores the API key, the search engine id and the
loaded site list; `_perform_search` sends GET requests whose parameters are
`key`, `cx`, `q`, `start` and `num`.  The external world is embedded as a
function `Request → ApiResponse`: `ApiResponse.failure` models any exception
raised by `requests.get` or `response.json()`, and `ApiResponse.success`
carries the HTTP status code and, when the decoded JSON body has an `items`
key, its list of items (`none` embeds a body without an `items` key). -/

structure Searcher where
  api_key : String
  search_engine_id : String
  ebook_sites : List String
deriving DecidableEq

/-- One JSON item of an API response; each field is present or absent,
matching `item.get(field, '')` in the source. -/
structure RawItem where
  title : Option String
  link : Option String
  snippet : Option String
  displayLink : Option String
  formattedUrl : Option String
deriving DecidableEq

/-- The result record built from one item (src/main.py lines 160-168). -/
structure Item where
  title : String
  link : String
  snippet : String
  displayLink : String
  formattedUrl : String
deriving DecidableEq

def RawItem.toItem (r : RawItem) : Item :=
  ⟨r.title.getD "", r.link.getD "", r.snippet.getD "",
   r.displayLink.getD "", r.formattedUrl.getD ""⟩

/-- The `params` dictionary of one `requests.get` call
(src/main.py lines 141-147). -/
structure Request where
  key : String
  cx : String
  q : String
  start : Nat
  num : Int
deriving DecidableEq

inductive ApiResponse where
  | failure (msg : String)
  | success (status : Nat) (items : Option (List RawItem))

/-- Everything observable about one `_perform_search` call: its return value
(`Except.error` when a caught-by-the-caller exception propagates out of it),
the requests it issued, and the lines it printed. -/
structure SearchOutcome where
  retval : Except String (List Item)
  requests : List Request
  log : List String

/-- Python list slicing `xs[:k]` for an `int` bound `k`: a nonnegative bound
keeps the first `k` elements (clamped at the length), a negative bound drops
the last `-k` elements. -/
def pyTake (k : Int) (xs : List α) : List α :=
  if 0 ≤ k then xs.take k.toNat else xs.take (xs.length - (-k).toNat)

/-! ### `EbookSearcher._perform_search` (src/main.py lines 126-172)

The `while` loop is embedded with a fuel argument to keep the recursion
structural.  The loop guard requires `startIndex ≤ 91` and every iteration
adds 10 to `startIndex`, so from the initial value 1 at most 10 iterations
run; `performSearch` passes fuel 10, which is therefore never exhausted
before the guard fails, and the fuel-0 branch returns the same value as the
guard-failure exit (`performSearchLoop_fuel_sufficient` below proves the
fuel bound exact). -/

/-- The `params` dictionary built at the top of each loop iteration:
`key`, `cx`, `q`, `start`, and `num = min(10, max_results - len(results))`. -/
def mkParams (searcher : Searcher) (query : String) (startIndex : Nat)
    (num : Int) : Request :=
  ⟨searcher.api_key, searcher.search_engine_id, query, startIndex, num⟩

def performSearchLoop (env : Request → ApiResponse) (searcher : Searcher)
    (query : String) (maxResults : Int) :
    Nat → List Item → Nat → List Request → List String → SearchOutcome
  | 0, results, _startIndex, requests, log =>
      ⟨.ok (pyTake maxResults results), requests, log⟩
  | fuel + 1, results, startIndex, requests, log =>
      if (results.length : Int) < maxResults ∧ startIndex ≤ 91 then
        match env (mkParams searcher query startIndex
            (min 10 (maxResults - results.length))) with
        | .failure msg =>
            ⟨.error msg,
             requests ++ [mkParams searcher query startIndex
               (min 10 (maxResults - results.length))], log⟩
        | .success status items =>
          if status ≠ 200 then
            ⟨.ok (pyTake maxResults results),
             requests ++ [mkParams searcher query startIndex
               (min 10 (maxResults - results.length))],
             log ++ ["API Error: " ++ toString status]⟩
          else
            match items with
            | none =>
                ⟨.ok (pyTake maxResults results),
                 requests ++ [mkParams searcher query startIndex
                   (min 10 (maxResults - results.length))], log⟩
            | some its =>
                performSearchLoop env searcher query maxResults fuel
                  (results ++ its.map RawItem.toItem) (startIndex + 10)
                  (requests ++ [mkParams searcher query startIndex
                    (min 10 (maxResults - results.length))]) log
      else ⟨.ok (pyTake maxResults results), requests, log⟩

/-- `EbookSearcher._perform_search`: run the pagination loop from
`results = []`, `start_index = 1`. -/
def performSearch (env : Request → ApiResponse) (searcher : Searcher)
    (query : String) (maxResults : Int) : SearchOutcome :=
  performSearchLoop env searcher query maxResults 10 [] 1 [] []

/-- Fuel adequacy: once `92 ≤ startIndex + 10 * fuel`, adding more fuel does
not change the outcome.  At the entry point (`startIndex = 1`, fuel 10) the
bound holds, so fuel 10 computes exactly the unbounded Python loop. -/
theorem performSearchLoop_fuel_sufficient
    (env : Request → ApiResponse) (searcher : Searcher)
    (query : String) (maxResults : Int) :
    ∀ (fuel : Nat) (results : List Item) (startIndex : Nat)
      (requests : List Request) (log : List String),
      92 ≤ startIndex + 10 * fuel →
      performSearchLoop env searcher query maxResults fuel
          results startIndex requests log
        = performSearchLoop env searcher query maxResults (fuel + 1)
            results startIndex requests log := by
  intro fuel
  induction fuel with
  | zero =>
    intro results startIndex requests log h
    have hng : ¬((results.length : Int) < maxResults ∧ startIndex ≤ 91) := by
      omega
    simp only [performSearchLoop, if_neg hng]
  | succ n ih =>
    intro results startIndex requests log h
    by_cases hg : (results.length : Int) < maxResults ∧ startIndex ≤ 91
    · simp only [performSearchLoop, if_pos hg]
      cases env (mkParams searcher query startIndex
          (min 10 (maxResults - results.length))) with
      | failure msg => rfl
      | success status items =>
        by_cases hs : status ≠ 200
        · simp only [if_pos hs]
        · simp only [if_neg hs]
          cases items with
          | none => rfl
          | some its => exact ih _ _ _ _ (by omega)
    · simp only [performSearchLoop, if_neg hg]

/-- Every request recorded by the loop was already present, or has a start
offset `≡ 1 (mod 10)` that is at most 91 and a `num` of at most 10. -/
theorem performSearchLoop_requests_spec
    (env : Request → ApiResponse) (searcher : Searcher)
    (query : String) (maxResults : Int) :
    ∀ (fuel : Nat) (results : List Item) (startIndex : Nat)
      (requests : List Request) (log : List String),
      startIndex % 10 = 1 →
      ∀ r ∈ (performSearchLoop env searcher query maxResults fuel
          results startIndex requests log).requests,
        r ∈ requests ∨ (r.start % 10 = 1 ∧ r.start ≤ 91 ∧ r.num ≤ 10) := by
  intro fuel
  induction fuel with
  | zero =>
    intro results startIndex requests log hmod r hr
    exact Or.inl hr
  | succ n ih =>
    intro results startIndex requests log hmod r hr
    by_cases hg : (results.length : Int) < maxResults ∧ startIndex ≤ 91
    · simp only [performSearchLoop, if_pos hg] at hr
      have hreq : ∀ hmem : r ∈ requests ++ [mkParams searcher query startIndex
          (min 10 (maxResults - results.length))],
          r ∈ requests ∨ (r.start % 10 = 1 ∧ r.start ≤ 91 ∧ r.num ≤ 10) := by
        intro hmem
        rcases List.mem_append.mp hmem with hin | hnew
        · exact Or.inl hin
        · right
          have : r = mkParams searcher query startIndex
              (min 10 (maxResults - results.length)) := by
            simpa using hnew
          subst this
          exact ⟨hmod, hg.2, min_le_left _ _⟩
      cases henv : env (mkParams searcher query startIndex
          (min 10 (maxResults - results.length))) with
      | failure msg =>
        simp only [henv] at hr
        exact hreq hr
      | success status items =>
        simp only [henv] at hr
        by_cases hs : status ≠ 200
        · rw [if_pos hs] at hr
          exact hreq hr
        · rw [if_neg hs] at hr
          cases items with
          | none => exact hreq hr
          | some its =>
            have hmod10 : (startIndex + 10) % 10 = 1 := by omega
            rcases ih (results ++ its.map RawItem.toItem) (startIndex + 10)
                _ log hmod10 r hr with hin | hp
            · exact hreq hin
            · exact Or.inr hp
    · simp only [performSearchLoop, if_neg hg] at hr
      exact Or.inl hr

/-- Every `Except.ok` return value of the loop is a `results[:max_results]`
slice of some accumulated list. -/
theorem performSearchLoop_retval_take
    (env : Request → ApiResponse) (searcher : Searcher)
    (query : String) (maxResults : Int) :
    ∀ (fuel : Nat) (results : List Item) (startIndex : Nat)
      (requests : List Request) (log : List String) (l : List Item),
      (performSearchLoop env searcher query maxResults fuel
          results startIndex requests log).retval = Except.ok l →
      ∃ rs, l = pyTake maxResults rs := by
  intro fuel
  induction fuel with
  | zero =>
    intro results startIndex requests log l hl
    exact ⟨results, by simpa [performSearchLoop] using hl.symm⟩
  | succ n ih =>
    intro results startIndex requests log l hl
    by_cases hg : (results.length : Int) < maxResults ∧ startIndex ≤ 91
    · simp only [performSearchLoop, if_pos hg] at hl
      cases henv : env (mkParams searcher query startIndex
          (min 10 (maxResults - results.length))) with
      | failure msg =>
        simp only [henv] at hl
        exact absurd hl (by simp)
      | success status items =>
        simp only [henv] at hl
        by_cases hs : status ≠ 200
        · rw [if_pos hs] at hl
          exact ⟨results, by simpa using hl.symm⟩
        · rw [if_neg hs] at hl
          cases items with
          | none => exact ⟨results, by simpa using hl.symm⟩
          | some its => exact ih _ _ _ _ _ hl
    · simp only [performSearchLoop, if_neg hg] at hl
      exact ⟨results, by simpa using hl.symm⟩

/-- The length of a nonnegative slice is bounded by the slicing index. -/
theorem pyTake_length_le (k : Int) (hk : 0 ≤ k) (xs : List α) :
    ((pyTake k xs).length : Int) ≤ k := by
  rw [pyTake, if_pos hk]
  have := List.length_take k.toNat xs
  omega

/-! ### `EbookSearcher.search_books` (src/main.py lines 87-124)

For each site the method prints a progress line, builds the query, runs
`_perform_search`, mutates each returned dictionary by adding the
`source_site` and `search_keywords` keys, and extends the aggregate list;
any exception is caught, an error line is printed, and the loop continues
with the next site. -/

/-- A result dictionary after `search_books` has added the `source_site`
and `search_keywords` keys (src/main.py lines 112-114). -/
structure TaggedItem where
  title : String
  link : String
  snippet : String
  displayLink : String
  formattedUrl : String
  source_site : String
  search_keywords : List String
deriving DecidableEq

def tagItem (it : Item) (site : String) (keywords : List String) :
    TaggedItem :=
  ⟨it.title, it.link, it.snippet, it.displayLink, it.formattedUrl,
   site, keywords⟩

/-- Aggregate result list and console output of a `search_books` call. -/
structure BooksOutcome where
  results : List TaggedItem
  log : List String
deriving DecidableEq

def searchBooksLoop (env : Request → ApiResponse) (searcher : Searcher)
    (keywords : List String) (maxResults : Int) (filetypes : List String) :
    List String → BooksOutcome
  | [] => ⟨[], []⟩
  | site :: rest =>
    match (performSearch env searcher (build_query keywords site filetypes)
        maxResults) with
    | ⟨.ok rs, _, plog⟩ =>
        ⟨rs.map (fun it => tagItem it site keywords)
           ++ (searchBooksLoop env searcher keywords maxResults filetypes
                rest).results,
         (("Searching on " ++ site ++ "...") :: plog)
           ++ (searchBooksLoop env searcher keywords maxResults filetypes
                rest).log⟩
    | ⟨.error e, _, plog⟩ =>
        ⟨(searchBooksLoop env searcher keywords maxResults filetypes
            rest).results,
         ((("Searching on " ++ site ++ "...") :: plog)
             ++ ["Error searching on " ++ site ++ ": " ++ e])
           ++ (searchBooksLoop env searcher keywords maxResults filetypes
                rest).log⟩

/-- `EbookSearcher.search_books`: a `sites` argument of `none` embeds the
Python default `sites = self.ebook_sites`. -/
def search_books (env : Request → ApiResponse) (searcher : Searcher)
    (keywords : List String) (sites : Option (List String))
    (maxResults : Int) (filetypes : List String) : BooksOutcome :=
  searchBooksLoop env searcher keywords maxResults filetypes
    (sites.getD searcher.ebook_sites)

/-- What one site adds to the aggregate list: its tagged results when
`_perform_search` returns, nothing when it raises. -/
def siteContribution (env : Request → ApiResponse) (searcher : Searcher)
    (keywords : List String) (filetypes : List String) (maxResults : Int)
    (site : String) : List TaggedItem :=
  match (performSearch env searcher (build_query keywords site filetypes)
      maxResults).retval with
  | .ok rs => rs.map fun it => tagItem it site keywords
  | .error _ => []

/-- The aggregate list is the concatenation, in site order, of each site's
contribution. -/
theorem searchBooksLoop_results_flatMap (env : Request → ApiResponse)
    (searcher : Searcher) (keywords : List String) (maxResults : Int)
    (filetypes : List String) :
    ∀ sites : List String,
      (searchBooksLoop env searcher keywords maxResults filetypes
          sites).results
        = sites.flatMap
            (siteContribution env searcher keywords filetypes maxResults) := by
  intro sites
  induction sites with
  | nil => rfl
  | cons site rest ih =>
    rw [List.flatMap_cons, ← ih]
    rw [searchBooksLoop, siteContribution]
    cases hps : performSearch env searcher
        (build_query keywords site filetypes) maxResults with
    | mk retval reqs plog =>
      cases retval with
      | ok rs => simp
      | error e => simp

/-- Any line printed by a listed site's `_perform_search` appears in the
`search_books` console output. -/
theorem searchBooksLoop_log_superset (env : Request → ApiResponse)
    (searcher : Searcher) (keywords : List String) (maxResults : Int)
    (filetypes : List String) :
    ∀ (sites : List String) (site : String), site ∈ sites →
      ∀ x ∈ (performSearch env searcher (build_query keywords site filetypes)
          maxResults).log,
        x ∈ (searchBooksLoop env searcher keywords maxResults filetypes
            sites).log := by
  intro sites
  induction sites with
  | nil => intro site hsite; exact absurd hsite (List.not_mem_nil site)
  | cons a rest ih =>
    intro site hsite x hx
    rw [searchBooksLoop]
    rcases List.mem_cons.mp hsite with heq | hmem
    · subst heq
      cases hps : performSearch env searcher
          (build_query keywords site filetypes) maxResults with
      | mk retval reqs plog =>
        rw [hps] at hx
        cases retval with
        | ok rs => simp [hx]
        | error e => simp [hx]
    · have hrest := ih site hmem x hx
      cases hps : performSearch env searcher
          (build_query keywords a filetypes) maxResults with
      | mk retval reqs plog =>
        cases retval with
        | ok rs => simp [hrest]
        | error e => simp [hrest]

/-- When a listed site's `_perform_search` raises, the error line printed by
the `except` branch appears in the `search_books` console output. -/
theorem searchBooksLoop_error_logged (env : Request → ApiResponse)
    (searcher : Searcher) (keywords : List String) (maxResults : Int)
    (filetypes : List String) :
    ∀ (sites : List String) (site : String) (e : String), site ∈ sites →
      (performSearch env searcher (build_query keywords site filetypes)
          maxResults).retval = Except.error e →
      ("Error searching on " ++ site ++ ": " ++ e)
        ∈ (searchBooksLoop env searcher keywords maxResults filetypes
            sites).log := by
  intro sites
  induction sites with
  | nil => intro site e hsite; exact absurd hsite (List.not_mem_nil site)
  | cons a rest ih =>
    intro site e hsite herr
    rw [searchBooksLoop]
    rcases List.mem_cons.mp hsite with heq | hmem
    · subst heq
      cases hps : performSearch env searcher
          (build_query keywords site filetypes) maxResults with
      | mk retval reqs plog =>
        rw [hps] at herr
        cases retval with
        | ok rs => exact absurd herr (by simp)
        | error e' =>
          have : e' = e := by simpa using herr
          subst this
          simp
    · have hrest := ih site e hmem herr
      cases hps : performSearch env searcher
          (build_query keywords a filetypes) maxResults with
      | mk retval reqs plog =>
        cases retval with
        | ok rs => simp [hrest]
        | error e' => simp [hrest]

/-! ### Python string helpers

`str.strip()` and `str.split(',')` are embedded structurally over the
character list so that concrete instances evaluate; the ASCII whitespace
set suffices for every string the claims touch. -/

/-- The whitespace characters Python's `str.strip()` removes (ASCII part). -/
def isSpaceCh (c : Char) : Bool :=
  c = ' ' || c = '\t' || c = '\n' || c = '\r'
    || c = Char.ofNat 11 || c = Char.ofNat 12

/-- Python `str.strip()`: surrounding whitespace removed. -/
def pyStrip (s : String) : String :=
  String.mk (((s.toList.dropWhile isSpaceCh).reverse.dropWhile
    isSpaceCh).reverse)

def splitCommaAux : List Char → List Char → List String
  | [], acc => [String.mk acc.reverse]
  | c :: rest, acc =>
      if c = ',' then String.mk acc.reverse :: splitCommaAux rest []
      else splitCommaAux rest (c :: acc)

/-- Python `str.split(',')`: split at every comma, collapsing nothing, so
the empty string yields `[""]`. -/
def pySplitComma (s : String) : List String :=
  splitCommaAux s.toList []

/-! ### `EbookSearcher.get_ebook_sites` (src/main.py lines 34-54) -/

/-- The character class `[a-zA-Z0-9.-]` of the site regex. -/
def siteClassCh (c : Char) : Bool :=
  isAsciiAlnumCh c || c = '.' || c = '-'

/-- Embedding of `re.match(r'^[a-zA-Z0-9.-]+\.[a-zA-Z]{2,}$', s)` as a
Boolean: the regex accepts `s` exactly when `s = A ++ "." ++ B` with `A` a
nonempty string over the class and `B` at least two ASCII letters running to
the end.  `B` contains no dot, so the separating dot is necessarily the last
dot of `s`; splitting there gives this executable form. -/
def urlPatternMatch (s : String) : Bool :=
  let cs := s.toList
  let bRev := cs.reverse.takeWhile fun c => c ≠ '.'
  if bRev.length = cs.length then
    false
  else
    let a := cs.take (cs.length - bRev.length - 1)
    a ≠ [] && a.all siteClassCh && decide (2 ≤ bRev.length)
      && bRev.all isAsciiLetterCh

/-- `EbookSearcher.get_ebook_sites`: a `fileLines` argument of `none` embeds
an absent `ebook_sites.txt` (`os.path.exists` false), `some lines` the
file's lines.  The comprehension keeps `line.strip()` for every line whose
stripped form matches the pattern. -/
def get_ebook_sites (fileLines : Option (List String)) :
    Except String (List String) :=
  match fileLines with
  | none =>
      .error "Please create a file named 'ebook_sites.txt' with ebook sites."
  | some lines =>
      if (lines.map pyStrip).filter urlPatternMatch = [] then
        .error "No ebook sites found in the file."
      else
        .ok ((lines.map pyStrip).filter urlPatternMatch)

/-! ### `EbookSearcher.save_results` (src/main.py lines 174-188)

`pd.DataFrame(results).to_csv(filename, index=False, encoding='utf-8')`
writes one header row naming the dictionary keys in insertion order and one
data row per dictionary; the cell rendering of the keyword-list column is
immaterial to the claims. -/

structure CsvFile where
  header : List String
  rows : List (List String)
deriving DecidableEq

/-- Column order of the result dictionaries: the five keys set in
`_perform_search` followed by the two added in `search_books`. -/
def csvHeader : List String :=
  ["title", "link", "snippet", "displayLink", "formattedUrl",
   "source_site", "search_keywords"]

def taggedItemRow (r : TaggedItem) : List String :=
  [r.title, r.link, r.snippet, r.displayLink, r.formattedUrl,
   r.source_site, toString r.search_keywords]

/-- `EbookSearcher.save_results`: returns the file written (`none` when
nothing is written) and the console output. -/
def save_results (results : List TaggedItem) (filename : String) :
    Option CsvFile × List String :=
  if results = [] then
    (none, ["No results to save."])
  else
    (some ⟨csvHeader, results.map taggedItemRow⟩,
     ["Results saved to " ++ filename])

/-! ### `load_environment_variables` (src/main.py lines 211-236) -/

/-- `load_and_clean_env_list`: split the variable's value (default `''`) on
commas, strip each piece, and keep the non-empty ones. -/
def load_and_clean_env_list (env : String → Option String)
    (envVar : String) : List String :=
  ((pySplitComma ((env envVar).getD "")).map pyStrip).filter
    fun v => v ≠ ""

/-- Python `int(...)` applied to a string: surrounding whitespace stripped,
then an optionally signed digit string (`String.toInt?`); `none` embeds the
`ValueError` it raises otherwise. -/
def pyInt (s : String) : Option Int :=
  (pyStrip s).toInt?

/-- The value returned by `load_environment_variables`. -/
structure Config where
  api_key : String
  search_engine_id : String
  keywords : List String
  filetypes : List String
  max_results_per_site : Int
deriving DecidableEq

/-- `load_environment_variables` over an environment `env` (`os.getenv`).
The source checks `any(x is None for x in [api_key, search_engine_id,
keywords])`, but `keywords` comes from `load_and_clean_env_list`, which
always returns a list and never `None`, so only the two `os.getenv` results
can trigger the `ValueError`; the embedding therefore tests exactly those
two.  A malformed `MAX_RESULTS_PER_SITE` makes `int()` raise, which the
`except` clause re-raises as a `RuntimeError`. -/
def load_environment_variables (env : String → Option String) :
    Except String Config :=
  match (match env "MAX_RESULTS_PER_SITE" with
         | none => some (10 : Int)
         | some s => pyInt s) with
  | none => .error "Error loading environment variables"
  | some maxResults =>
    match env "API_KEY", env "SEARCH_ENGINE_ID" with
    | some k, some c =>
        .ok ⟨k, c, load_and_clean_env_list env "KEYWORDS",
             load_and_clean_env_list env "FILETYPES", maxResults⟩
    | _, _ =>
        .error "Please set GOOGLE_API_KEY, GOOGLE_CSE_ID, and SEARCH_KEYWORDS in your .env file."

/-! ### Concrete test fixtures used by witnesses and counterexamples -/

/-- Environment with credentials set but no keyword list. -/
def envNoKeywords : String → Option String :=
  fun v => if v = "API_KEY" then some "k"
           else if v = "SEARCH_ENGINE_ID" then some "c"
           else none

/-- Environment with no API key. -/
def envNoApiKey : String → Option String :=
  fun v => if v = "SEARCH_ENGINE_ID" then some "c" else none

def testSearcher : Searcher := ⟨"key", "cx", ["example.com"]⟩

/-- A JSON item with all five fields present. -/
def rawA : RawItem := ⟨some "T", some "L", some "S", some "D", some "F"⟩

def itemA : Item := ⟨"T", "L", "S", "D", "F"⟩

/-- An API that answers every request with HTTP 200 and ten items. -/
def envTen : Request → ApiResponse :=
  fun _ => .success 200 (some (List.replicate 10 rawA))

/-- An API that answers the first page with ten items and every later page
with HTTP 500. -/
def envPartial : Request → ApiResponse :=
  fun r => if r.start = 1 then .success 200 (some (List.replicate 10 rawA))
           else .success 500 none

/-- An API that answers every request with HTTP 500. -/
def envFail : Request → ApiResponse :=
  fun _ => .success 500 none

/-- An API whose every call raises an exception. -/
def envExn : Request → ApiResponse :=
  fun _ => .failure "boom"

/-- When the very first request of `_perform_search` gets a non-200 status,
the loop breaks immediately: the call returns the empty list, has issued
exactly one request, and has printed the API error line. -/
theorem performSearch_first_non200 (env : Request → ApiResponse)
    (searcher : Searcher) (query : String) (maxResults : Int)
    (status : Nat) (items : Option (List RawItem))
    (hm : 0 < maxResults)
    (henv : env (mkParams searcher query 1 (min 10 maxResults))
        = .success status items)
    (hs : status ≠ 200) :
    performSearch env searcher query maxResults
      = ⟨.ok [], [mkParams searcher query 1 (min 10 maxResults)],
         ["API Error: " ++ toString status]⟩ := by
  have hg : ((([] : List Item).length : Int) < maxResults
      ∧ (1 : Nat) ≤ 91) := by
    constructor
    · simpa using hm
    · norm_num
  have hmin : min 10 (maxResults - ((([] : List Item).length : Nat) : Int))
      = min 10 maxResults := by
    simp
  have step :
      performSearchLoop env searcher query maxResults (9 + 1) [] 1 [] []
        = ⟨.ok (pyTake maxResults []),
           [] ++ [mkParams searcher query 1
             (min 10 (maxResults - (([] : List Item).length : Int)))],
           [] ++ ["API Error: " ++ toString status]⟩ := by
    simp only [performSearchLoop, if_pos hg]
    rw [show (min 10 (maxResults - ((([] : List Item).length : Nat) : Int)))
        = min 10 maxResults from hmin, henv]
    simp only [if_pos hs]
  calc performSearch env searcher query maxResults
      = performSearchLoop env searcher query maxResults (9 + 1) [] 1 [] [] :=
        rfl
    _ = ⟨.ok (pyTake maxResults []),
         [] ++ [mkParams searcher query 1
           (min 10 (maxResults - (([] : List Item).length : Int)))],
         [] ++ ["API Error: " ++ toString status]⟩ := step
    _ = ⟨.ok [], [mkParams searcher query 1 (min 10 maxResults)],
         ["API Error: " ++ toString status]⟩ := by
        rw [hmin]
        simp [pyTake]

end EbookSearch

/-- C1: for keywords `["Nietzsche","Gay"]`, site `"example.com"` and file
types `["pdf","epub"]`, the query built before percent-encoding is exactly
`site:example.com "Nietzsche" "Gay" filetype:pdf OR filetype:epub`. -/
theorem C1_build_query_exact :
    EbookSearch.buildQueryRaw ["Nietzsche", "Gay"] "example.com" ["pdf", "epub"]
      = "site:example.com \"Nietzsche\" \"Gay\" filetype:pdf OR filetype:epub" := by
  rfl

/-- C2: every API request issued by `_perform_search` has a start offset in
the sequence 1, 11, 21, … (`start % 10 = 1`), a start offset of at most 91,
and a `num` parameter of at most 10. -/
theorem C2_pagination_request_bounds
    (env : EbookSearch.Request → EbookSearch.ApiResponse)
    (searcher : EbookSearch.Searcher) (query : String) (maxResults : Int)
    (r : EbookSearch.Request)
    (hr : r ∈ (EbookSearch.performSearch env searcher query maxResults).requests) :
    r.start % 10 = 1 ∧ r.start ≤ 91 ∧ r.num ≤ 10 := by
  rcases EbookSearch.performSearchLoop_requests_spec env searcher query
      maxResults 10 [] 1 [] [] (by norm_num) r hr with hin | hp
  · exact absurd hin (List.not_mem_nil r)
  · exact hp

theorem C2_pagination_request_bounds_witness :
    EbookSearch.mkParams EbookSearch.testSearcher "q" 1 5
        ∈ (EbookSearch.performSearch EbookSearch.envTen
            EbookSearch.testSearcher "q" 5).requests ∧
      (EbookSearch.mkParams EbookSearch.testSearcher "q" 1 5).start % 10 = 1 ∧
      (EbookSearch.mkParams EbookSearch.testSearcher "q" 1 5).start ≤ 91 ∧
      (EbookSearch.mkParams EbookSearch.testSearcher "q" 1 5).num ≤ 10 :=
  ⟨by decide,
   C2_pagination_request_bounds EbookSearch.envTen EbookSearch.testSearcher
     "q" 5 (EbookSearch.mkParams EbookSearch.testSearcher "q" 1 5) (by decide)⟩

/-- C3: for every API environment and every positive `max_results`,
`_perform_search` returns (when it returns without an exception) a list of at
most `max_results` items, whatever the responses contain. -/
theorem C3_at_most_max_results
    (env : EbookSearch.Request → EbookSearch.ApiResponse)
    (searcher : EbookSearch.Searcher) (query : String) (maxResults : Int)
    (hpos : 0 < maxResults) (l : List EbookSearch.Item)
    (hl : (EbookSearch.performSearch env searcher query maxResults).retval
        = Except.ok l) :
    (l.length : Int) ≤ maxResults := by
  rcases EbookSearch.performSearchLoop_retval_take env searcher query
      maxResults 10 [] 1 [] [] l hl with ⟨rs, hrs⟩
  rw [hrs]
  exact EbookSearch.pyTake_length_le maxResults (le_of_lt hpos) rs

theorem C3_at_most_max_results_witness :
    (0 : Int) < 5 ∧
      (((List.replicate 5 EbookSearch.itemA).length : Int) ≤ 5) :=
  ⟨by decide,
   C3_at_most_max_results EbookSearch.envTen EbookSearch.testSearcher "q" 5
     (by decide) (List.replicate 5 EbookSearch.itemA) (by rfl)⟩

/-- C10: calling `_perform_search` with `max_results ≤ 0` issues no API
request and returns the empty list (the loop guard fails immediately). -/
theorem C10_nonpositive_max_results
    (env : EbookSearch.Request → EbookSearch.ApiResponse)
    (searcher : EbookSearch.Searcher) (query : String) (maxResults : Int)
    (hm : maxResults ≤ 0) :
    EbookSearch.performSearch env searcher query maxResults
      = ⟨Except.ok [], [], []⟩ := by
  have hng : ¬(((([] : List EbookSearch.Item).length) : Int) < maxResults
      ∧ (1 : Nat) ≤ 91) := by
    intro h
    have h1 := h.1
    simp only [List.length_nil, Nat.cast_zero] at h1
    omega
  simp only [EbookSearch.performSearch, EbookSearch.performSearchLoop,
    if_neg hng]
  simp [EbookSearch.pyTake]

theorem C10_nonpositive_max_results_witness :
    (0 : Int) ≤ 0 ∧
      EbookSearch.performSearch EbookSearch.envTen EbookSearch.testSearcher
          "q" 0 = ⟨Except.ok [], [], []⟩ :=
  ⟨by decide,
   C10_nonpositive_max_results EbookSearch.envTen EbookSearch.testSearcher
     "q" 0 (by decide)⟩

/-- C4 counterexample: with an API that serves ten items on the first page
and then answers HTTP 500, the site logs an API error during pagination yet
contributes ten results (the already-accumulated pages) to the aggregate
output — not zero as the claim states. -/
theorem C4_counterexample :
    "API Error: 500" ∈ (EbookSearch.search_books EbookSearch.envPartial
        EbookSearch.testSearcher ["k"] (some ["example.com"]) 15 []).log ∧
      (EbookSearch.search_books EbookSearch.envPartial EbookSearch.testSearcher
          ["k"] (some ["example.com"]) 15 []).results.length = 10 :=
  ⟨by decide, by rfl⟩

/-- C4 (amended): a non-200 HTTP response stops the site's pagination and is
logged, and results already accumulated from earlier pages are kept, so the
site contributes zero results when the non-200 arrives on the first request;
the overall run continues with the remaining sites either way. -/
theorem C4_non200_first_request
    (env : EbookSearch.Request → EbookSearch.ApiResponse)
    (searcher : EbookSearch.Searcher) (keywords filetypes : List String)
    (maxResults : Int) (site : String) (pre post : List String)
    (status : Nat) (items : Option (List EbookSearch.RawItem))
    (hm : 0 < maxResults)
    (henv : env (EbookSearch.mkParams searcher
        (EbookSearch.build_query keywords site filetypes) 1
        (min 10 maxResults)) = .success status items)
    (hs : status ≠ 200) :
    EbookSearch.siteContribution env searcher keywords filetypes maxResults
        site = [] ∧
      (EbookSearch.search_books env searcher keywords
            (some (pre ++ site :: post)) maxResults filetypes).results
        = (EbookSearch.search_books env searcher keywords (some pre)
              maxResults filetypes).results
          ++ (EbookSearch.search_books env searcher keywords (some post)
              maxResults filetypes).results ∧
      ("API Error: " ++ toString status)
        ∈ (EbookSearch.search_books env searcher keywords
            (some (pre ++ site :: post)) maxResults filetypes).log := by
  have hp := EbookSearch.performSearch_first_non200 env searcher
    (EbookSearch.build_query keywords site filetypes) maxResults status items
    hm henv hs
  have hcontrib : EbookSearch.siteContribution env searcher keywords
      filetypes maxResults site = [] := by
    rw [EbookSearch.siteContribution, hp]
    rfl
  refine ⟨hcontrib, ?_, ?_⟩
  · simp only [EbookSearch.search_books, Option.getD_some,
      EbookSearch.searchBooksLoop_results_flatMap, List.flatMap_append,
      List.flatMap_cons, hcontrib, List.nil_append]
  · apply EbookSearch.searchBooksLoop_log_superset env searcher keywords
      maxResults filetypes (pre ++ site :: post) site (by simp)
    rw [hp]
    simp

theorem C4_non200_first_request_witness :
    ((0 : Int) < 10 ∧ (500 : Nat) ≠ 200) ∧
      (EbookSearch.siteContribution EbookSearch.envFail
          EbookSearch.testSearcher ["k"] [] 10 "example.com" = [] ∧
        (EbookSearch.search_books EbookSearch.envFail EbookSearch.testSearcher
              ["k"] (some ([] ++ "example.com" :: [])) 10 []).results
          = (EbookSearch.search_books EbookSearch.envFail
                EbookSearch.testSearcher ["k"] (some []) 10 []).results
            ++ (EbookSearch.search_books EbookSearch.envFail
                EbookSearch.testSearcher ["k"] (some []) 10 []).results ∧
        ("API Error: " ++ toString (500 : Nat))
          ∈ (EbookSearch.search_books EbookSearch.envFail
              EbookSearch.testSearcher ["k"]
              (some ([] ++ "example.com" :: [])) 10 []).log) :=
  ⟨⟨by decide, by decide⟩,
   C4_non200_first_request EbookSearch.envFail EbookSearch.testSearcher
     ["k"] [] 10 "example.com" [] [] 500 none (by decide) (by rfl)
     (by decide)⟩

/-- C6: a site whose search raises an exception contributes zero results,
the exception is logged by the `except` branch, and `search_books` continues
with the remaining sites: the aggregate is exactly the concatenation of the
surrounding sites' aggregates. -/
theorem C6_exception_site_continues
    (env : EbookSearch.Request → EbookSearch.ApiResponse)
    (searcher : EbookSearch.Searcher) (keywords filetypes : List String)
    (maxResults : Int) (site : String) (pre post : List String) (e : String)
    (he : (EbookSearch.performSearch env searcher
        (EbookSearch.build_query keywords site filetypes)
        maxResults).retval = Except.error e) :
    EbookSearch.siteContribution env searcher keywords filetypes maxResults
        site = [] ∧
      (EbookSearch.search_books env searcher keywords
            (some (pre ++ site :: post)) maxResults filetypes).results
        = (EbookSearch.search_books env searcher keywords (some pre)
              maxResults filetypes).results
          ++ (EbookSearch.search_books env searcher keywords (some post)
              maxResults filetypes).results ∧
      ("Error searching on " ++ site ++ ": " ++ e)
        ∈ (EbookSearch.search_books env searcher keywords
            (some (pre ++ site :: post)) maxResults filetypes).log := by
  have hcontrib : EbookSearch.siteContribution env searcher keywords
      filetypes maxResults site = [] := by
    rw [EbookSearch.siteContribution, he]
  refine ⟨hcontrib, ?_, ?_⟩
  · simp only [EbookSearch.search_books, Option.getD_some,
      EbookSearch.searchBooksLoop_results_flatMap, List.flatMap_append,
      List.flatMap_cons, hcontrib, List.nil_append]
  · exact EbookSearch.searchBooksLoop_error_logged env searcher keywords
      maxResults filetypes (pre ++ site :: post) site e (by simp) he

theorem C6_exception_site_continues_witness :
    (EbookSearch.performSearch EbookSearch.envExn EbookSearch.testSearcher
          (EbookSearch.build_query ["k"] "example.com" []) 10).retval
        = Except.error "boom" ∧
      (EbookSearch.siteContribution EbookSearch.envExn
          EbookSearch.testSearcher ["k"] [] 10 "example.com" = [] ∧
        (EbookSearch.search_books EbookSearch.envExn EbookSearch.testSearcher
              ["k"] (some ([] ++ "example.com" :: [])) 10 []).results
          = (EbookSearch.search_books EbookSearch.envExn
                EbookSearch.testSearcher ["k"] (some []) 10 []).results
            ++ (EbookSearch.search_books EbookSearch.envExn
                EbookSearch.testSearcher ["k"] (some []) 10 []).results ∧
        ("Error searching on " ++ "example.com" ++ ": " ++ "boom")
          ∈ (EbookSearch.search_books EbookSearch.envExn
              EbookSearch.testSearcher ["k"]
              (some ([] ++ "example.com" :: [])) 10 []).log) :=
  ⟨by rfl,
   C6_exception_site_continues EbookSearch.envExn EbookSearch.testSearcher
     ["k"] [] 10 "example.com" [] [] "boom" (by rfl)⟩

/-- C9: every result in the aggregate list returned by `search_books`
carries the keyword list used for the search and the source site whose
search produced it: the result is the tagging of an item that the site's
own `_perform_search` returned. -/
theorem C9_results_tagged
    (env : EbookSearch.Request → EbookSearch.ApiResponse)
    (searcher : EbookSearch.Searcher) (keywords : List String)
    (sites : List String) (maxResults : Int) (filetypes : List String)
    (r : EbookSearch.TaggedItem)
    (hr : r ∈ (EbookSearch.search_books env searcher keywords (some sites)
        maxResults filetypes).results) :
    r.search_keywords = keywords ∧ r.source_site ∈ sites ∧
      ∃ rs, (EbookSearch.performSearch env searcher
            (EbookSearch.build_query keywords r.source_site filetypes)
            maxResults).retval = Except.ok rs ∧
        ∃ it ∈ rs, r = EbookSearch.tagItem it r.source_site keywords := by
  rw [EbookSearch.search_books, Option.getD_some,
    EbookSearch.searchBooksLoop_results_flatMap] at hr
  rcases List.mem_flatMap.mp hr with ⟨site, hsite, hmem⟩
  rw [EbookSearch.siteContribution] at hmem
  cases hps : (EbookSearch.performSearch env searcher
      (EbookSearch.build_query keywords site filetypes) maxResults).retval with
  | error e =>
    rw [hps] at hmem
    exact absurd hmem (by simp)
  | ok rs =>
    rw [hps] at hmem
    simp only [List.mem_map] at hmem
    rcases hmem with ⟨it, hit, heq⟩
    subst heq
    exact ⟨rfl, hsite, rs, hps, it, hit, rfl⟩

theorem C9_results_tagged_witness :
    EbookSearch.tagItem EbookSearch.itemA "example.com" ["k"]
        ∈ (EbookSearch.search_books EbookSearch.envTen
            EbookSearch.testSearcher ["k"] (some ["example.com"]) 1
            []).results ∧
      ((EbookSearch.tagItem EbookSearch.itemA "example.com"
            ["k"]).search_keywords = ["k"] ∧
        (EbookSearch.tagItem EbookSearch.itemA "example.com"
            ["k"]).source_site ∈ ["example.com"] ∧
        ∃ rs, (EbookSearch.performSearch EbookSearch.envTen
              EbookSearch.testSearcher
              (EbookSearch.build_query ["k"]
                (EbookSearch.tagItem EbookSearch.itemA "example.com"
                  ["k"]).source_site [])
              1).retval = Except.ok rs ∧
          ∃ it ∈ rs, EbookSearch.tagItem EbookSearch.itemA "example.com" ["k"]
            = EbookSearch.tagItem it
                (EbookSearch.tagItem EbookSearch.itemA "example.com"
                  ["k"]).source_site ["k"]) :=
  ⟨by decide,
   C9_results_tagged EbookSearch.envTen EbookSearch.testSearcher ["k"]
     ["example.com"] 1 []
     (EbookSearch.tagItem EbookSearch.itemA "example.com" ["k"])
     (by decide)⟩

/-- Counting in a filtered list: an element satisfying the predicate keeps
its multiplicity, any other element disappears. -/
theorem count_filter_eq (p : String → Bool) (s : String) :
    ∀ l : List String,
      (l.filter p).count s = if p s then l.count s else 0 := by
  intro l
  induction l with
  | nil => simp
  | cons a t ih =>
    by_cases hp : p a
    · rw [List.filter_cons_of_pos hp]
      by_cases hs : s = a
      · subst hs
        simp [ih, hp]
      · rw [List.count_cons_of_ne hs, List.count_cons_of_ne hs, ih]
    · rw [List.filter_cons_of_neg hp]
      by_cases hs : s = a
      · subst hs
        rw [ih, if_neg hp, if_neg hp]
      · rw [ih]
        by_cases hps : p s
        · rw [if_pos hps, if_pos hps, List.count_cons_of_ne hs]
        · rw [if_neg hps, if_neg hps]

/-- C7: a successfully loaded site list is a sublist of the stripped file
lines (original order, nothing invented), contains each hostname-matching
stripped line with its full multiplicity and non-matching strings not at
all, and is non-empty; an absent file errors with the file-not-found
message, and a file with zero matching lines errors with the validation
message. -/
theorem C7_site_list_loading (lines sites : List String)
    (h : EbookSearch.get_ebook_sites (some lines) = Except.ok sites) :
    sites.Sublist (lines.map EbookSearch.pyStrip) ∧
      (∀ s : String, sites.count s =
        if EbookSearch.urlPatternMatch s then
          (lines.map EbookSearch.pyStrip).count s
        else 0) ∧
      sites ≠ [] ∧
      EbookSearch.get_ebook_sites none
        = Except.error
            "Please create a file named 'ebook_sites.txt' with ebook sites." ∧
      (∀ lines' : List String,
        (lines'.map EbookSearch.pyStrip).filter EbookSearch.urlPatternMatch = [] →
        EbookSearch.get_ebook_sites (some lines')
          = Except.error "No ebook sites found in the file.") := by
  simp only [EbookSearch.get_ebook_sites] at h
  by_cases hf : (lines.map EbookSearch.pyStrip).filter EbookSearch.urlPatternMatch
      = []
  · rw [if_pos hf] at h
    exact absurd h (by simp)
  · rw [if_neg hf] at h
    injection h with h'
    subst h'
    refine ⟨List.filter_sublist _,
      fun s => count_filter_eq _ s _, hf, rfl, ?_⟩
    intro lines' h'
    simp only [EbookSearch.get_ebook_sites, if_pos h']

theorem C7_site_list_loading_witness :
    EbookSearch.get_ebook_sites
        (some ["example.com", "", "not a site", " site.org "])
        = Except.ok ["example.com", "site.org"] ∧
      List.Sublist ["example.com", "site.org"]
        (["example.com", "", "not a site", " site.org "].map
          EbookSearch.pyStrip) ∧
      (["example.com", "site.org"] : List String).count "site.org"
        = (if EbookSearch.urlPatternMatch "site.org" then
            ((["example.com", "", "not a site", " site.org "].map
              EbookSearch.pyStrip) : List String).count "site.org"
          else 0) ∧
      (["example.com", "site.org"] : List String) ≠ [] :=
  ⟨by rfl,
   (C7_site_list_loading ["example.com", "", "not a site", " site.org "]
     ["example.com", "site.org"] (by rfl)).1,
   (C7_site_list_loading ["example.com", "", "not a site", " site.org "]
     ["example.com", "site.org"] (by rfl)).2.1 "site.org",
   (C7_site_list_loading ["example.com", "", "not a site", " site.org "]
     ["example.com", "site.org"] (by rfl)).2.2.1⟩

/-- C8: with an empty result list `save_results` writes no file and reports
that nothing was saved; with `N ≥ 1` results it writes a CSV made of the
header row followed by exactly `N` data rows, one per result, and reports
the save. -/
theorem C8_save_results_rows (results : List EbookSearch.TaggedItem)
    (filename : String) :
    (results = [] →
      EbookSearch.save_results results filename
        = (none, ["No results to save."])) ∧
    (results ≠ [] →
      EbookSearch.save_results results filename
          = (some ⟨EbookSearch.csvHeader,
              results.map EbookSearch.taggedItemRow⟩,
             ["Results saved to " ++ filename]) ∧
        (results.map EbookSearch.taggedItemRow).length = results.length) := by
  constructor
  · intro h
    subst h
    rfl
  · intro h
    constructor
    · rw [EbookSearch.save_results, if_neg h]
    · simp

theorem C8_save_results_rows_witness :
    EbookSearch.save_results ([] : List EbookSearch.TaggedItem) "out.csv"
        = (none, ["No results to save."]) ∧
      EbookSearch.save_results
          [EbookSearch.tagItem EbookSearch.itemA "example.com" ["k"]]
          "out.csv"
          = (some ⟨EbookSearch.csvHeader,
              [EbookSearch.tagItem EbookSearch.itemA "example.com"
                ["k"]].map EbookSearch.taggedItemRow⟩,
             ["Results saved to " ++ "out.csv"]) ∧
      ([EbookSearch.tagItem EbookSearch.itemA "example.com" ["k"]].map
        EbookSearch.taggedItemRow).length = 1 :=
  ⟨(C8_save_results_rows [] "out.csv").1 rfl,
   (C8_save_results_rows
     [EbookSearch.tagItem EbookSearch.itemA "example.com" ["k"]]
     "out.csv").2 (by decide)⟩

/-- C5 (code bug evidence): with credentials set but the keyword variable
unset, `load_environment_variables` does not raise: it returns a
configuration whose keyword list is empty, because `load_and_clean_env_list`
always returns a list and the `is None` check over `[api_key,
search_engine_id, keywords]` can never fire for `keywords` — even though
that check names `keywords` and the error message tells the user to set the
keyword variable.  A missing API key, by contrast, is fatal as claimed. -/
theorem C5_missing_keywords_not_fatal :
    EbookSearch.load_environment_variables EbookSearch.envNoKeywords
        = Except.ok ⟨"k", "c", [], [], 10⟩ ∧
      EbookSearch.load_environment_variables EbookSearch.envNoApiKey
        = Except.error
            "Please set GOOGLE_API_KEY, GOOGLE_CSE_ID, and SEARCH_KEYWORDS in your .env file." :=
  ⟨rfl, rfl⟩
